import Mathlib

/-!
Verification development for the `basket-debate` repository.

The repository ships two frontend layers:
* `src/frontend/src/composables/useBasket.js` — a Vue composable
  (`optimizeBasket`, `totalPrice`, `agentLabel`, `normalizeStages`), rendered
  by `App.vue`;
* a vanilla-JS app (`extractBasketData`, `renderAgentLog`, `renderBasket`,
  `generateBasket`, `setState`).

JavaScript objects are embedded as Lean structures whose possibly-absent
fields are `Option`s; JS numbers are embedded as rationals `ℚ`; JS
truthiness (`x || d`, `x ? a : b`, `x ?? d`) is embedded by explicit helper
functions.  The backend pipeline is not part of the repository sources we
hold; where a claim needs it, a definition is modelled from the spec and
marked as such in its doc comment.
-/

/-- JS `String.prototype.trim()`: the string with leading and trailing
whitespace removed (structurally recursive so that concrete instances
evaluate in the kernel). -/
def jsTrim (s : String) : String :=
  ⟨((s.data.dropWhile Char.isWhitespace).reverse.dropWhile Char.isWhitespace).reverse⟩

/-- JS `o || d` on a possibly-absent number: `0` is falsy. -/
def jsOrQ (o : Option ℚ) (d : ℚ) : ℚ :=
  match o with
  | some q => if q = 0 then d else q
  | none => d

/-- JS `o || d` on a possibly-absent string: `""` is falsy. -/
def jsOrStr (o : Option String) (d : String) : String :=
  match o with
  | some s => if s = "" then d else s
  | none => d

/-- JS `o || null` on a possibly-absent number: `0` collapses to `null`. -/
def jsOrNullQ (o : Option ℚ) : Option ℚ :=
  match o with
  | some q => if q = 0 then none else some q
  | none => none

/-- JS `o || d` on a possibly-absent natural number: `0` is falsy. -/
def jsOrNat (o : Option ℕ) (d : ℕ) : ℕ :=
  match o with
  | some n => if n = 0 then d else n
  | none => d

/-- JS truthiness of a possibly-absent number (`undefined`/`null`/`0` falsy). -/
def jsTruthyOptQ (o : Option ℚ) : Bool :=
  match o with
  | some q => decide (q ≠ 0)
  | none => false

/-- JS truthiness of a possibly-absent natural number. -/
def jsTruthyOptNat (o : Option ℕ) : Bool :=
  match o with
  | some n => decide (n ≠ 0)
  | none => false

/-- JS truthiness of a possibly-absent string (`""` falsy). -/
def jsTruthyOptStr (o : Option String) : Bool :=
  match o with
  | some s => decide (s ≠ "")
  | none => false

/-- JS truthiness of a possibly-absent boolean. -/
def jsTruthyOptBool (o : Option Bool) : Bool :=
  match o with
  | some b => b
  | none => false

/-- Stand-in for JS number-to-string conversion in template literals. -/
def jsNumToString (q : ℚ) : String :=
  toString q.num ++ (if q.den = 1 then "" else "/" ++ toString q.den)

/-- Stand-in for JS `Number.prototype.toFixed(2)` (exact formatting is
irrelevant to every claim; the value it is applied to is what matters). -/
def toFixed2 (q : ℚ) : String :=
  jsNumToString q

/-- JS `o?.toFixed(2)` interpolated into a template literal: an absent
number prints as the string `undefined`. -/
def optToFixed2 (o : Option ℚ) : String :=
  match o with
  | some q => toFixed2 q
  | none => "undefined"

/-- JS `${o}` interpolation of a possibly-absent string. -/
def optInterp (o : Option String) : String :=
  match o with
  | some s => s
  | none => "undefined"

/-- The structured constraints object (`data.parsed`). -/
structure Parsed where
  budget_rub : Option ℚ
  people : Option ℕ
  meal_type : Option (List String)
  exclude_tags : Option (List String)
  include_tags : Option (List String)
  prefer_quick : Option Bool
deriving DecidableEq

/-- One basket item of the response envelope (`basket[]`). -/
structure BasketItem where
  id : Option ℕ
  name : Option String
  reason : Option String
  agent : Option String
  price : Option ℚ
  rating : Option ℚ
  ingredient_role : Option String
  quantity : Option ℚ
  unit : Option String
  price_per_unit : Option ℚ
  total_price : Option ℚ
deriving DecidableEq

/-- One budget-agent replacement record (`{from, to, saved}`). -/
structure Replacement where
  from_ : Option String
  to_ : Option String
  saved : Option ℚ
deriving DecidableEq

/-- A scenario object as the compatibility stage result carries it. -/
structure Scenario where
  name : Option String
deriving DecidableEq

/-- The value found at `result.compatibility_score`: either a plain number
or an object carrying a `total_score` field (possibly absent). -/
inductive ScoreVal where
  | num (q : ℚ)
  | obj (total_score : Option ℚ)
deriving DecidableEq

/-- JS truthiness of a `compatibility_score` value: the number `0` is
falsy, every object is truthy. -/
def scoreTruthy : ScoreVal → Bool
  | .num q => decide (q ≠ 0)
  | .obj _ => true

/-- JS `${score}` interpolation: objects print as `[object Object]`. -/
def scoreInterp : ScoreVal → String
  | .num q => jsNumToString q
  | .obj _ => "[object Object]"

/-- The per-stage `result` payload.  The JS object is untyped and
duck-typed per agent; the union of the fields the code reads is embedded
as one structure of optional fields. -/
structure StageResult where
  parsed : Option Parsed
  basket : Option (List BasketItem)
  scenario : Option Scenario
  total_price : Option ℚ
  compatibility_score : Option ScoreVal
  replacements : Option (List Replacement)
  saved : Option ℚ
  within_budget : Option Bool
deriving DecidableEq

/-- One `stages[]` record of the response envelope. -/
structure Stage where
  agent : String
  name : String
  status : Option String
  duration : Option ℚ
  result : Option StageResult
deriving DecidableEq

/-- The `summary` object of the response envelope. -/
structure Summary where
  total_price : Option ℚ
  original_price : Option ℚ
  savings : Option ℚ
  within_budget : Option Bool
  budget_rub : Option ℚ
deriving DecidableEq

/-- The `metadata` object of the response envelope. -/
structure Metadata where
  scenario_used : Option String
  people : Option ℕ
deriving DecidableEq

/-- The parsed JSON body of a backend response. -/
structure RespData where
  status : Option String
  message : Option String
  basket : Option (List BasketItem)
  parsed : Option Parsed
  summary : Option Summary
  metadata : Option Metadata
  stages : Option (List Stage)
deriving DecidableEq

/-- What a single `fetch` of `/api/generate-basket` did: either the promise
chain rejected (network failure / JSON failure) with an error message, or a
response with an `ok` flag, an HTTP status and a parsed body came back. -/
inductive FetchOutcome where
  | networkError (msg : String)
  | response (ok : Bool) (httpStatus : ℕ) (data : RespData)
deriving DecidableEq

/-- An all-absent `StageResult` (JS `{}`). -/
def blankResult : StageResult :=
  ⟨none, none, none, none, none, none, none, none⟩

/-- An all-absent `Parsed` (JS `{}`). -/
def blankParsed : Parsed :=
  ⟨none, none, none, none, none, none⟩

/-- An all-absent `Summary` (JS `{}`). -/
def blankSummary : Summary :=
  ⟨none, none, none, none, none⟩

/-- An all-absent `Metadata` (JS `{}`). -/
def blankMetadata : Metadata :=
  ⟨none, none⟩

/-- An all-absent `Scenario` (JS `{}`). -/
def blankScenario : Scenario :=
  ⟨none⟩

/-- A stage record with no fields set (JS `{}` after a failed `find`). -/
def blankStage : Stage :=
  ⟨"", "", none, none, none⟩

/-- An all-absent response body. -/
def blankResp : RespData :=
  ⟨none, none, none, none, none, none, none⟩

/-- An all-absent basket item. -/
def blankItem : BasketItem :=
  ⟨none, none, none, none, none, none, none, none, none, none, none⟩

/-!
### Vue composable `useBasket.js`
-/

/-- The reactive state of `useBasket()` (`useBasket.js`, lines 6-18). -/
structure UIState where
  userQuery : String
  basket : List BasketItem
  loading : Bool
  error : Option String
  diet : String
  allergies : String
  parsedConstraints : Option Parsed
  originalPrice : ℚ
  stages : List Stage
deriving DecidableEq

/-- The initial values of the refs of `useBasket()`. -/
def initialUIState : UIState :=
  { userQuery := ""
    basket := []
    loading := false
    error := none
    diet := "любая"
    allergies := ""
    parsedConstraints := none
    originalPrice := 0
    stages := [] }

/-- `totalPrice` computed (`useBasket.js`, lines 21-23):
`basket.reduce((sum, item) => sum + (item.price || 0), 0)`. -/
def totalPrice (basket : List BasketItem) : ℚ :=
  basket.foldl (fun sum item => sum + jsOrQ item.price 0) 0

/-- The `agentLabel` dictionary (`useBasket.js`, lines 25-30), as the JS
property lookup it is used for: unknown keys yield `undefined`. -/
def agentLabel (a : String) : Option String :=
  if a = "compatibility" then some "🔗 Совместимость"
  else if a = "budget" then some "💰 Бюджет"
  else if a = "profile" then some "👤 Профиль"
  else if a = "llm_parser" then some "🧠 LLM Parser"
  else none

/-- The four `stages[].agent` identifiers the UI consumes. -/
def uiAgents : List String :=
  ["llm_parser", "compatibility", "budget", "profile"]

/-- The per-stage body of `normalizeStages` (`useBasket.js`, lines 85-100):
a shallow copy of the stage in which a truthy `result.compatibility_score`
is replaced by `typeof score === 'object' ? score.total_score : score`. -/
def normalizeStage (stage : Stage) : Stage :=
  match stage.result with
  | none => stage
  | some r =>
    match r.compatibility_score with
    | none => stage
    | some sc =>
      if scoreTruthy sc then
        { stage with
          result := some
            { r with
              compatibility_score :=
                match sc with
                | .num q => some (.num q)
                | .obj ts => ts.map ScoreVal.num } }
      else stage

/-- `normalizeStages` (`useBasket.js`, lines 84-101). -/
def normalizeStages (stages : List Stage) : List Stage :=
  stages.map normalizeStage

/-- `optimizeBasket` (`useBasket.js`, lines 33-81), as a function from the
current state and the outcome the single `fetch` would have to the final
state; the boolean records whether the network request was issued at all. -/
def optimizeBasket (s : UIState) (server : FetchOutcome) : UIState × Bool :=
  if jsTrim s.userQuery = "" then
    ({ s with
        error := some "⚠️ Введите запрос!"
        basket := []
        parsedConstraints := none
        stages := [] }, false)
  else
    let s1 : UIState :=
      { s with
          loading := true
          error := none
          basket := []
          parsedConstraints := none
          stages := [] }
    let s2 : UIState :=
      match server with
      | .networkError m => { s1 with error := some ("❌ Ошибка: " ++ m) }
      | .response ok httpStatus data =>
        if ok = false then
          { s1 with error := some ("❌ Ошибка: Server error " ++ toString httpStatus) }
        else if data.status = some "success" then
          { s1 with
              basket := data.basket.getD []
              parsedConstraints := data.parsed
              originalPrice := jsOrQ (data.summary.bind Summary.original_price) 0
              stages := normalizeStages (data.stages.getD []) }
        else
          { s1 with error := some ("❌ Ошибка: " ++ jsOrStr data.message "Unknown error") }
    ({ s2 with loading := false }, true)

/-- The Экономия figure `App.vue` (line 159) displays:
`originalPrice - totalPrice`. -/
def displayedSavings (s : UIState) : ℚ :=
  s.originalPrice - totalPrice s.basket

/-- The failing outcomes of one `optimizeBasket` call: rejected empty
query, network failure, non-ok HTTP status, or a body whose `status` is
not `"success"`. -/
def failingOutcome (s : UIState) (server : FetchOutcome) : Bool :=
  if jsTrim s.userQuery = "" then true
  else
    match server with
    | .networkError _ => true
    | .response ok _ data => !ok || decide (data.status ≠ some "success")

/-!
### Vanilla-JS frontend (`app.js`, the unnamed source file)
-/

/-- JS truthiness of `o?.length` for a possibly-absent array. -/
def jsTruthyOptList (o : Option (List String)) : Bool :=
  match o with
  | some l => decide (l ≠ [])
  | none => false

/-- JS `.filter(Boolean).join(' · ')` over detail fragments. -/
def joinParts (l : List String) : String :=
  String.intercalate " · " (l.filter (fun s => s ≠ ""))

/-- The `llm_parser` branch of `renderAgentLog`. -/
def llmParserDetail (result : StageResult) : String :=
  let p := result.parsed.getD blankParsed
  joinParts
    [ (match p.budget_rub with
       | some q => if q = 0 then "" else "💰 Бюджет: " ++ jsNumToString q ++ "₽"
       | none => "")
    , (match p.people with
       | some n => if n = 0 then "" else "👥 Людей: " ++ toString n
       | none => "")
    , (if jsTruthyOptList p.meal_type then
         "🍽 Тип: " ++ String.intercalate ", " (p.meal_type.getD [])
       else "")
    , (if jsTruthyOptBool p.prefer_quick then "⚡ Быстро" else "")
    , (if jsTruthyOptList p.exclude_tags then
         "🚫 Исключить: " ++ String.intercalate ", " (p.exclude_tags.getD [])
       else "") ]

/-- The `compatibility` branch of `renderAgentLog`. -/
def compatibilityDetail (result : StageResult) : String :=
  let basket := result.basket.getD []
  let scenario := result.scenario.getD blankScenario
  joinParts
    [ (if jsTruthyOptStr scenario.name then
         "📋 Сценарий: " ++ optInterp scenario.name
       else "")
    , (if basket.length ≠ 0 then
         "🛒 Найдено товаров: " ++ toString basket.length
       else "")
    , (match result.total_price with
       | some q => if q = 0 then "" else "💵 Сумма: " ++ toFixed2 q ++ "₽"
       | none => "")
    , (match result.compatibility_score with
       | some sc => if scoreTruthy sc then "⭐ Score: " ++ scoreInterp sc else ""
       | none => "") ]

/-- One `log-replacement` line of the `budget` branch. -/
def replacementLine (r : Replacement) : String :=
  "<div class=\"log-replacement\">↩ <b>" ++ optInterp r.from_ ++ "</b> → <b>"
    ++ optInterp r.to_ ++ "</b> (−" ++ optToFixed2 r.saved ++ "₽)</div>"

/-- The `budget` branch of `renderAgentLog`. -/
def budgetDetail (result : StageResult) : String :=
  let replacements := result.replacements.getD []
  if replacements.length > 0 then
    "💡 Замен: " ++ toString replacements.length ++ ", сэкономлено: "
      ++ optToFixed2 result.saved ++ "₽"
      ++ String.join (replacements.map replacementLine)
  else
    if jsTruthyOptBool result.within_budget then
      "✅ Бюджет не превышен, замены не нужны"
    else
      "⚠️ Не удалось уложиться в бюджет"

/-- The `detail` string `renderAgentLog` computes for one stage record
(`app.js`): a stage-specific detail for the four known `agent` identifiers,
the empty string for every other stage. -/
def stageDetail (stage : Stage) : String :=
  let result := stage.result.getD blankResult
  if stage.agent = "llm_parser" then llmParserDetail result
  else if stage.agent = "compatibility" then compatibilityDetail result
  else if stage.agent = "budget" then budgetDetail result
  else if stage.agent = "profile" then "⏳ Персонализация в разработке"
  else ""

/-- One rendered agent-log block. -/
structure LogEntry where
  statusIcon : String
  name : String
  durationText : String
  detail : String
deriving DecidableEq

/-- The rendered content of the agent-log container. -/
inductive LogView where
  | noData
  | entries (l : List LogEntry)
deriving DecidableEq

/-- `renderAgentLog` (`app.js`): the structured content it writes into the
`agent-log-body` node. -/
def renderAgentLog (data : RespData) : LogView :=
  let stages := data.stages.getD []
  if stages = [] then .noData
  else
    .entries (stages.map fun stage =>
      { statusIcon := if stage.status = some "completed" then "✅" else "❌"
        name := stage.name
        durationText :=
          match stage.duration with
          | some q => if q = 0 then "" else jsNumToString q ++ "с"
          | none => ""
        detail := stageDetail stage })

/-- The record `extractBasketData` returns. -/
structure Extracted where
  basket : List BasketItem
  total_price : ℚ
  original_price : ℚ
  savings : ℚ
  scenario_used_name : String
  compatibility_score : ScoreVal
  within_budget : Bool
  budget_rub : Option ℚ
  people : ℕ
deriving DecidableEq

/-- `extractBasketData` (`app.js`): unpacks the pipeline response with the
JS defaulting the code applies (`|| 0`, `|| []`, `?? true`, `|| null`). -/
def extractBasketData (data : RespData) : Extracted :=
  let basket := data.basket.getD []
  let stages := data.stages.getD []
  let summary := data.summary.getD blankSummary
  let metadata := data.metadata.getD blankMetadata
  let compatStage := (stages.find? (fun s => s.agent = "compatibility")).getD blankStage
  let compatResult := compatStage.result.getD blankResult
  { basket := basket
    total_price := jsOrQ summary.total_price 0
    original_price := jsOrQ summary.original_price 0
    savings := jsOrQ summary.savings 0
    scenario_used_name := jsOrStr metadata.scenario_used "—"
    compatibility_score :=
      match compatResult.compatibility_score with
      | some sc => if scoreTruthy sc then sc else .num 0
      | none => .num 0
    within_budget := summary.within_budget.getD true
    budget_rub := jsOrNullQ summary.budget_rub
    people := jsOrNat metadata.people 1 }

/-- The DOM state the app manipulates: the four mutually-exclusive view
blocks, the budget warning, the text/content nodes, the button and the
query input focus. -/
structure Dom where
  placeholderVisible : Bool
  contentVisible : Bool
  errorVisible : Bool
  loadingVisible : Bool
  budgetWarningVisible : Bool
  errorMessage : String
  metaScenario : String
  metaScore : String
  metaTotal : String
  basketBody : List BasketItem
  agentLog : Option LogView
  btnDisabled : Bool
  queryFocused : Bool
deriving DecidableEq

/-- The four arguments `setState` accepts. -/
inductive ViewState where
  | loading
  | result
  | error
  | empty
deriving DecidableEq

/-- `setState` (`app.js`): hides all four view blocks, then shows the one
matching the requested state.  It does not touch the budget warning. -/
def setState (st : ViewState) (d : Dom) : Dom :=
  let d0 : Dom :=
    { d with
        placeholderVisible := false
        contentVisible := false
        errorVisible := false
        loadingVisible := false }
  match st with
  | .loading => { d0 with loadingVisible := true }
  | .result => { d0 with contentVisible := true }
  | .error => { d0 with errorVisible := true }
  | .empty => { d0 with placeholderVisible := true }

/-- `renderBasket` (`app.js`): renders an extracted response into the DOM.
An empty basket short-circuits into the error state; otherwise the meta
lines, the (conditional) budget warning, the basket rows and the agent log
are written and the result view is shown. -/
def renderBasket (extracted : Extracted) (rawData : RespData) (d : Dom) : Dom :=
  if extracted.basket = [] then
    setState .error
      { d with errorMessage := "❌ Корзина пустая — попробуй другой запрос или увеличь бюджет" }
  else
    let d1 : Dom :=
      { d with
          metaScenario := "📋 " ++
            (if extracted.scenario_used_name = "" then "Сценарий не определён"
             else extracted.scenario_used_name)
          metaScore := "⭐ Совместимость: " ++ scoreInterp extracted.compatibility_score
          metaTotal := "💰 Итого: " ++ toFixed2 extracted.total_price ++ " ₽" }
    let d2 : Dom :=
      if jsTruthyOptQ extracted.budget_rub then
        if extracted.within_budget then { d1 with budgetWarningVisible := false }
        else { d1 with budgetWarningVisible := true }
      else d1
    let d3 : Dom := { d2 with basketBody := extracted.basket }
    let d4 : Dom := { d3 with agentLog := some (renderAgentLog rawData) }
    setState .result d4

/-- The outcome of one `generateBasket` call: the final DOM state and
whether the network request was issued at all. -/
structure GenResult where
  dom : Dom
  fetched : Bool
deriving DecidableEq

/-- `generateBasket` (`app.js`): trims the query and bails out (focusing
the input, without any request) when it is empty; otherwise performs the
request and renders either the error state or the basket. -/
def generateBasket (queryRaw : String) (server : FetchOutcome) (d : Dom) : GenResult :=
  if jsTrim queryRaw = "" then
    { dom := { d with queryFocused := true }, fetched := false }
  else
    let d1 : Dom := { setState .loading d with btnDisabled := true }
    let d2 : Dom :=
      match server with
      | .networkError m => setState .error { d1 with errorMessage := "❌ " ++ m }
      | .response ok httpStatus data =>
        if !ok || decide (data.status = some "error") then
          setState .error
            { d1 with
                errorMessage := "❌ " ++
                  jsOrStr data.message ("HTTP " ++ toString httpStatus) }
        else renderBasket (extractBasketData data) data d1
    { dom := { d2 with btnDisabled := false }, fetched := true }

/-!
### Spec-modelled backend pieces

The backend pipeline (orchestrator and agents) is part of this repository
but not among the sources under `src/`; the definitions below are modelled
from the spec and marked as such.
-/

/-- The record the Budget Agent's `fit` contract returns. -/
structure FitResult where
  basket : List BasketItem
  replacements : List Replacement
  saved : ℚ
  within_budget : Bool
deriving DecidableEq

/-- The price a basket item contributes to the running total. -/
def itemPrice (i : BasketItem) : ℚ :=
  i.total_price.getD 0

/-- `sum(item.total_price)` over a basket. -/
def basketTotal (b : List BasketItem) : ℚ :=
  (b.map itemPrice).sum

/-- The strictly cheaper substitutes available for an item. -/
def cheaperSubs (subsFor : BasketItem → List BasketItem) (i : BasketItem) :
    List BasketItem :=
  (subsFor i).filter (fun s => decide (itemPrice s < itemPrice i))

/-- The first highest-priced element of a list (stable tie-break). -/
def pickMaxPriced (l : List BasketItem) : Option BasketItem :=
  l.foldl
    (fun acc i =>
      match acc with
      | none => some i
      | some j => if itemPrice j < itemPrice i then some i else some j)
    none

/-- The first cheapest element of a list (stable tie-break). -/
def pickCheapest (l : List BasketItem) : Option BasketItem :=
  l.foldl
    (fun acc i =>
      match acc with
      | none => some i
      | some j => if itemPrice i < itemPrice j then some i else some j)
    none

/-- One greedy substitution step: swap the highest-priced item that has a
cheaper valid substitute for its cheapest substitute, recording a
`Replacement`; `none` when no substitution can reduce the total. -/
def fitStep (subsFor : BasketItem → List BasketItem) (b : List BasketItem) :
    Option (List BasketItem × Replacement) :=
  let candidates := b.filter (fun i => decide (cheaperSubs subsFor i ≠ []))
  match pickMaxPriced candidates with
  | none => none
  | some i =>
    match pickCheapest (cheaperSubs subsFor i) with
    | none => none
    | some s =>
      some (b.map (fun j => if j = i then s else j),
        { from_ := i.name, to_ := s.name, saved := some (itemPrice i - itemPrice s) })

/-- The greedy substitution loop, fuelled (each step strictly lowers the
total, so within a finite catalog the loop terminates; the fuel bounds the
substitution chain). -/
def fitLoop (subsFor : BasketItem → List BasketItem) (budget : ℚ) :
    ℕ → List BasketItem → List Replacement → List BasketItem × List Replacement × Bool
  | 0, b, reps => (b, reps.reverse, decide (basketTotal b ≤ budget))
  | n + 1, b, reps =>
    if basketTotal b ≤ budget then (b, reps.reverse, true)
    else
      match fitStep subsFor b with
      | none => (b, reps.reverse, false)
      | some (b2, rep) => fitLoop subsFor budget n b2 (rep :: reps)

/-- Modelled from the spec: the Budget Agent's contract
`fit(basket, budget_rub | null) -> (Basket, replacements, saved,
within_budget)` (§4.3) — its implementation is not among the sources under
`src/`.  A null budget passes the basket through unchanged with
`within_budget = true` and no replacements; otherwise the agent greedily
swaps the highest-priced item having a cheaper substitute (provided by
`subsFor`, standing for the same-role same-tag-constraints catalog lookup)
for its cheapest substitute until the basket fits or no substitution
reduces the total, reporting `within_budget = false` in the latter case. -/
def fit (subsFor : BasketItem → List BasketItem) (basket : List BasketItem)
    (budget : Option ℚ) : FitResult :=
  match budget with
  | none => { basket := basket, replacements := [], saved := 0, within_budget := true }
  | some bud =>
    let fuel := basket.length + (basket.map (fun i => (subsFor i).length)).sum + 1
    let out := fitLoop subsFor bud fuel basket []
    { basket := out.1
      replacements := out.2.1
      saved := basketTotal basket - basketTotal out.1
      within_budget := out.2.2 }

/-- Modelled from the spec: a well-formed compatibility-stage result as the
backend (not under `src/`) produces it — `compatibility.result` carries
`{basket, scenario, compatibility_score, total_price}` with
`compatibility_score` a single number normalized to the fixed 0–10 scale
(§4.2, §6). -/
def compatResultWellFormed (r : StageResult) : Bool :=
  (match r.compatibility_score with
   | some (.num q) => decide (0 ≤ q ∧ q ≤ 10)
   | _ => false)
  && r.basket.isSome && r.scenario.isSome && r.total_price.isSome

/-- Modelled from the spec: the orchestrator (not under `src/`) assembles
`summary.total_price` as the total of the basket it returns (§3, §6), the
same total the Vue UI recomputes from `basket[].price`. -/
def summaryConsistent (data : RespData) : Bool :=
  match data.summary with
  | some sm => decide (sm.total_price = some (totalPrice (data.basket.getD [])))
  | none => true

/-!
### Sample values used by witnesses and counterexamples
-/

/-- A DOM in its initial page state: placeholder visible, everything else
hidden, the budget warning hidden. -/
def blankDom : Dom :=
  { placeholderVisible := true
    contentVisible := false
    errorVisible := false
    loadingVisible := false
    budgetWarningVisible := false
    errorMessage := ""
    metaScenario := ""
    metaScore := ""
    metaTotal := ""
    basketBody := []
    agentLog := none
    btnDisabled := false
    queryFocused := false }

/-- A compatibility-stage result with a numeric score and all contract
fields present. -/
def sampleCompatResult : StageResult :=
  { blankResult with
      compatibility_score := some (.num 7)
      basket := some []
      scenario := some blankScenario
      total_price := some 100 }

/-- A compatibility stage record around `sampleCompatResult`. -/
def sampleCompatStage : Stage :=
  { agent := "compatibility"
    name := "Compatibility Agent"
    status := some "completed"
    duration := none
    result := some sampleCompatResult }

/-- A budget-stage result reporting a respected budget and no
replacements. -/
def sampleBudgetResult : StageResult :=
  { blankResult with within_budget := some true }

/-- A budget stage record around `sampleBudgetResult`. -/
def sampleBudgetStage : Stage :=
  { agent := "budget"
    name := "Budget Agent"
    status := some "completed"
    duration := none
    result := some sampleBudgetResult }

/-- A one-item basket whose single item costs 100. -/
def sampleC2Item : BasketItem :=
  { blankItem with price := some 100 }

/-- A summary consistent with `[sampleC2Item]`. -/
def sampleC2Summary : Summary :=
  { blankSummary with total_price := some 100, original_price := some 500 }

/-- A success response around `sampleC2Item` and `sampleC2Summary`. -/
def sampleC2Resp : RespData :=
  { blankResp with
      status := some "success"
      basket := some [sampleC2Item]
      summary := some sampleC2Summary }

/-- An error-status response carrying a non-empty message. -/
def sampleErrResp : RespData :=
  { blankResp with status := some "error", message := some "boom" }

/-- An extracted response over budget: truthy `budget_rub`, not within
budget, non-empty basket. -/
def overBudgetExtracted : Extracted :=
  { basket := [blankItem]
    total_price := 2000
    original_price := 2000
    savings := 0
    scenario_used_name := "ужин"
    compatibility_score := .num 7
    within_budget := false
    budget_rub := some 1000
    people := 2 }

/-- The same extracted response with a null budget (and within budget). -/
def nullBudgetExtracted : Extracted :=
  { overBudgetExtracted with budget_rub := none, within_budget := true }

/-!
### Claim theorems
-/

/-- C1: a query that is empty or all-whitespace never reaches the network:
`optimizeBasket` returns without issuing the request, sets the non-null
validation message and clears `basket`, `parsedConstraints` and `stages`;
`generateBasket` likewise returns (only focusing the input) without
issuing any request. -/
theorem c1_empty_query_rejected (s : UIState) (server : FetchOutcome)
    (raw : String) (server2 : FetchOutcome) (d : Dom)
    (h1 : jsTrim s.userQuery = "") (h2 : jsTrim raw = "") :
    optimizeBasket s server =
      ({ s with
          error := some "⚠️ Введите запрос!"
          basket := []
          parsedConstraints := none
          stages := [] }, false) ∧
    (optimizeBasket s server).1.error ≠ none ∧
    generateBasket raw server2 d =
      { dom := { d with queryFocused := true }, fetched := false } := by
  refine ⟨?_, ?_, ?_⟩ <;> simp [optimizeBasket, generateBasket, h1, h2]

/-- Witness for C1 at the all-whitespace query `" "`. -/
theorem c1_empty_query_rejected_witness :
    optimizeBasket { initialUIState with userQuery := " " } (.networkError "down") =
      ({ initialUIState with
          userQuery := " "
          error := some "⚠️ Введите запрос!" }, false) ∧
    generateBasket " " (.networkError "down") blankDom =
      { dom := { blankDom with queryFocused := true }, fetched := false } :=
  ⟨(c1_empty_query_rejected { initialUIState with userQuery := " " } (.networkError "down")
      " " (.networkError "down") blankDom (by decide) (by decide)).1,
   (c1_empty_query_rejected { initialUIState with userQuery := " " } (.networkError "down")
      " " (.networkError "down") blankDom (by decide) (by decide)).2.2⟩

/-- C10: starting from a non-loading state (as the composable initializes
and every settled call re-establishes), `optimizeBasket` always settles
with `loading = false`, and on every failing outcome the state is atomic:
empty basket, null parsed constraints, empty stages, non-null error. -/
theorem c10_loading_false_and_atomic_errors (s : UIState) (server : FetchOutcome)
    (h : s.loading = false) :
    initialUIState.loading = false ∧
    (optimizeBasket s server).1.loading = false ∧
    (failingOutcome s server = true →
      (optimizeBasket s server).1.basket = [] ∧
      (optimizeBasket s server).1.parsedConstraints = none ∧
      (optimizeBasket s server).1.stages = [] ∧
      (optimizeBasket s server).1.error.isSome = true) := by
  refine ⟨rfl, ?_, ?_⟩
  · by_cases hq : jsTrim s.userQuery = ""
    · simp [optimizeBasket, hq, h]
    · cases server with
      | networkError m => simp [optimizeBasket, hq]
      | response ok st data =>
        by_cases hok : ok = false
        · simp [optimizeBasket, hq, hok]
        · by_cases hst : data.status = some "success" <;>
            simp [optimizeBasket, hq, hok, hst]
  · intro hf
    by_cases hq : jsTrim s.userQuery = ""
    · simp [optimizeBasket, hq]
    · cases server with
      | networkError m => simp [optimizeBasket, hq]
      | response ok st data =>
        by_cases hok : ok = false
        · simp [optimizeBasket, hq, hok]
        · by_cases hst : data.status = some "success"
          · simp [failingOutcome, hq, hok, hst] at hf
          · simp [optimizeBasket, hq, hok, hst]

/-- Witness for C10: a network failure from the initial state. -/
theorem c10_loading_false_and_atomic_errors_witness :
    (optimizeBasket initialUIState (.networkError "down")).1.loading = false :=
  (c10_loading_false_and_atomic_errors initialUIState (.networkError "down") rfl).2.1

/-- `normalizeStage` in closed form: a stage passes through unchanged
unless its result holds an object-valued `compatibility_score`, which is
replaced by that object's `total_score`. -/
theorem normalizeStage_cases (stage : Stage) :
    normalizeStage stage =
      match stage.result with
      | none => stage
      | some r =>
        match r.compatibility_score with
        | none => stage
        | some (.num _) => stage
        | some (.obj ts) =>
          { stage with result := some { r with compatibility_score := ts.map ScoreVal.num } } := by
  obtain ⟨agent, name, status, duration, result⟩ := stage
  cases result with
  | none => rfl
  | some r =>
    obtain ⟨p, b, sc, tp, cs, rp, sv, wb⟩ := r
    cases cs with
    | none => rfl
    | some scv =>
      cases scv with
      | num q =>
        by_cases hq : q = 0
        · subst hq
          simp [normalizeStage, scoreTruthy]
        · simp [normalizeStage, scoreTruthy, hq]
      | obj ts =>
        simp [normalizeStage, scoreTruthy]

/-- C3: the UI consumes exactly the agent identifiers `llm_parser`,
`compatibility`, `budget` and `profile` — `agentLabel` is defined on
exactly those four keys, and `renderAgentLog` computes an empty detail
for every stage whose agent is any other identifier. -/
theorem c3_agent_identifiers_closed (a : String) (stage : Stage)
    (h1 : stage.agent = a) (h2 : a ∉ uiAgents) :
    agentLabel a = none ∧ stageDetail stage = "" ∧
    (∀ b : String, (agentLabel b).isSome = true ↔ b ∈ uiAgents) := by
  have hmem : ¬(a = "llm_parser" ∨ a = "compatibility" ∨ a = "budget" ∨ a = "profile") := by
    simpa [uiAgents] using h2
  push_neg at hmem
  obtain ⟨h3, h4, h5, h6⟩ := hmem
  refine ⟨?_, ?_, ?_⟩
  · simp [agentLabel, h3, h4, h5, h6]
  · simp [stageDetail, h1, h3, h4, h5, h6]
  · intro b
    by_cases e1 : b = "compatibility"
    · subst e1; simp [agentLabel, uiAgents]
    · by_cases e2 : b = "budget"
      · subst e2; simp [agentLabel, uiAgents]
      · by_cases e3 : b = "profile"
        · subst e3; simp [agentLabel, uiAgents]
        · by_cases e4 : b = "llm_parser"
          · subst e4; simp [agentLabel, uiAgents]
          · simp [agentLabel, uiAgents, e1, e2, e3, e4]

/-- Witness for C3 at the unknown identifier `"cache"`. -/
theorem c3_agent_identifiers_closed_witness :
    agentLabel "cache" = none ∧
    stageDetail { blankStage with agent := "cache" } = "" :=
  ⟨(c3_agent_identifiers_closed "cache" { blankStage with agent := "cache" }
      rfl (by decide)).1,
   (c3_agent_identifiers_closed "cache" { blankStage with agent := "cache" }
      rfl (by decide)).2.1⟩

/-- C9: `normalizeStages` is a per-element map that preserves length and
order; each output stage equals its input stage except that an
object-valued `result.compatibility_score` is replaced by its
`total_score`; stages whose result lacks a truthy score (numbers included,
`0` in particular) pass through unchanged. -/
theorem c9_normalizeStages_frame (l : List Stage) :
    (normalizeStages l).length = l.length ∧
    normalizeStages l =
      l.map (fun stage =>
        match stage.result with
        | none => stage
        | some r =>
          match r.compatibility_score with
          | none => stage
          | some (.num _) => stage
          | some (.obj ts) =>
            { stage with result := some { r with compatibility_score := ts.map ScoreVal.num } }) := by
  constructor
  · simp [normalizeStages]
  · unfold normalizeStages
    induction l with
    | nil => rfl
    | cons hd tl ih =>
      rw [List.map_cons, List.map_cons, normalizeStage_cases hd, ih]

/-- C6: for a spec-well-formed compatibility stage result, the result
carries `basket`, `scenario`, `total_price` and a numeric
`compatibility_score` on the fixed 0–10 scale, and `normalizeStages`
passes it through unchanged (a numeric score is left as is); only an
object-shaped score is ever reduced, namely to its `total_score` field. -/
theorem c6_compat_score_numeric (stage : Stage) (r : StageResult)
    (h1 : stage.result = some r) (h2 : compatResultWellFormed r = true) :
    (∃ q : ℚ, r.compatibility_score = some (.num q) ∧ 0 ≤ q ∧ q ≤ 10) ∧
    r.basket.isSome = true ∧ r.scenario.isSome = true ∧ r.total_price.isSome = true ∧
    (normalizeStage stage).result = some r ∧
    (∀ (st2 : Stage) (r2 : StageResult) (ts : Option ℚ),
      st2.result = some r2 → r2.compatibility_score = some (.obj ts) →
      (normalizeStage st2).result =
        some { r2 with compatibility_score := ts.map ScoreVal.num }) := by
  unfold compatResultWellFormed at h2
  simp only [Bool.and_eq_true] at h2
  obtain ⟨⟨⟨hsc, hb⟩, hs⟩, ht⟩ := h2
  cases hcs : r.compatibility_score with
  | none => rw [hcs] at hsc; simp at hsc
  | some scv =>
    cases scv with
    | obj ts => rw [hcs] at hsc; simp at hsc
    | num q =>
      rw [hcs] at hsc
      simp only [decide_eq_true_eq] at hsc
      refine ⟨⟨q, rfl, hsc.1, hsc.2⟩, hb, hs, ht, ?_, ?_⟩
      · rw [normalizeStage_cases stage, h1]
        simp [hcs, h1]
      · intro st2 r2 ts h3 h4
        rw [normalizeStage_cases st2, h3]
        simp [h4]

/-- Witness for C6 at a concrete well-formed compatibility stage. -/
theorem c6_compat_score_numeric_witness :
    (normalizeStage sampleCompatStage).result = some sampleCompatResult :=
  (c6_compat_score_numeric sampleCompatStage sampleCompatResult rfl (by decide)).2.2.2.2.1

/-- C4: a null (or absent) budget makes the Budget Agent a pass-through
with `within_budget = true` and no replacements; on the UI side,
`extractBasketData` defaults an omitted `within_budget` to `true`
(whether the summary omits the key or is itself absent), and the budget
branch of `renderAgentLog`, given no replacements and a within-budget
result, reports the no-replacements-needed outcome. -/
theorem c4_null_budget_within (subsFor : BasketItem → List BasketItem)
    (basket : List BasketItem) (data : RespData) (sm : Summary)
    (stage : Stage) (r : StageResult)
    (h1 : data.summary = some sm) (h2 : sm.within_budget = none)
    (h3 : stage.agent = "budget") (h4 : stage.result = some r)
    (h5 : r.replacements.getD [] = []) (h6 : r.within_budget = some true) :
    (fit subsFor basket none).within_budget = true ∧
    (fit subsFor basket none).replacements = [] ∧
    (fit subsFor basket none).basket = basket ∧
    (extractBasketData data).within_budget = true ∧
    (∀ d2 : RespData, d2.summary = none → (extractBasketData d2).within_budget = true) ∧
    stageDetail stage = "✅ Бюджет не превышен, замены не нужны" := by
  refine ⟨rfl, rfl, rfl, ?_, ?_, ?_⟩
  · simp [extractBasketData, h1, h2]
  · intro d2 hd2
    simp [extractBasketData, hd2, blankSummary]
  · simp [stageDetail, h3, h4, budgetDetail, h5, h6, jsTruthyOptBool]

/-- Witness for C4 at a concrete null-budget run and budget stage. -/
theorem c4_null_budget_within_witness :
    (fit (fun _ => []) [blankItem] none).within_budget = true ∧
    (extractBasketData { blankResp with summary := some blankSummary }).within_budget = true ∧
    stageDetail sampleBudgetStage = "✅ Бюджет не превышен, замены не нужны" :=
  ⟨(c4_null_budget_within (fun _ => []) [blankItem]
      { blankResp with summary := some blankSummary } blankSummary
      sampleBudgetStage sampleBudgetResult rfl rfl rfl rfl rfl rfl).1,
   (c4_null_budget_within (fun _ => []) [blankItem]
      { blankResp with summary := some blankSummary } blankSummary
      sampleBudgetStage sampleBudgetResult rfl rfl rfl rfl rfl rfl).2.2.2.1,
   (c4_null_budget_within (fun _ => []) [blankItem]
      { blankResp with summary := some blankSummary } blankSummary
      sampleBudgetStage sampleBudgetResult rfl rfl rfl rfl rfl rfl).2.2.2.2.2⟩

/-- C2: on a success response whose summary is consistent with the basket
it carries (the backend totals the basket into `summary.total_price`), the
Экономия figure the Vue UI displays — `originalPrice` minus the total it
recomputes over the basket items — equals the response's
`summary.original_price` minus `summary.total_price` exactly. -/
theorem c2_displayed_savings_exact (s : UIState) (st : ℕ) (data : RespData)
    (sm : Summary) (op tp : ℚ)
    (hq : jsTrim s.userQuery ≠ "")
    (hst : data.status = some "success")
    (hsm : data.summary = some sm)
    (hop : sm.original_price = some op)
    (htp : sm.total_price = some tp)
    (hcons : summaryConsistent data = true) :
    displayedSavings (optimizeBasket s (.response true st data)).1 = op - tp := by
  have hbasket : tp = totalPrice (data.basket.getD []) := by
    unfold summaryConsistent at hcons
    rw [hsm] at hcons
    simp only [decide_eq_true_eq, htp, Option.some.injEq] at hcons
    exact hcons
  unfold displayedSavings
  simp only [optimizeBasket, hq, if_false, hst, hsm]
  by_cases h0 : op = 0 <;>
    simp [hq, hst, hsm, hop, jsOrQ, h0, ← hbasket]

/-- Witness for C2 at a concrete consistent success response. -/
theorem c2_displayed_savings_exact_witness :
    displayedSavings
      (optimizeBasket { initialUIState with userQuery := "ужин" }
        (.response true 200 sampleC2Resp)).1 = 500 - 100 :=
  c2_displayed_savings_exact { initialUIState with userQuery := "ужин" } 200
    sampleC2Resp sampleC2Summary 500 100 (by decide) rfl rfl rfl rfl
    (by norm_num [summaryConsistent, sampleC2Resp, sampleC2Summary, sampleC2Item,
      totalPrice, jsOrQ, blankResp, blankSummary, blankItem])

/-- C8: `renderBasket` on a response whose basket is empty (absent baskets
are already turned into `[]` by `extractBasketData`) puts the UI in the
error state with the fixed empty-basket message and renders no result
content — regardless of the response's `status`. -/
theorem c8_empty_basket_error (extracted : Extracted) (rawData : RespData) (d : Dom)
    (h : extracted.basket = []) :
    renderBasket extracted rawData d =
      setState .error
        { d with errorMessage := "❌ Корзина пустая — попробуй другой запрос или увеличь бюджет" } ∧
    (renderBasket extracted rawData d).errorVisible = true ∧
    (renderBasket extracted rawData d).contentVisible = false ∧
    (renderBasket extracted rawData d).basketBody = d.basketBody ∧
    (∀ data : RespData, data.basket = none → (extractBasketData data).basket = []) := by
  refine ⟨?_, ?_, ?_, ?_, ?_⟩
  · simp [renderBasket, h]
  · simp [renderBasket, h, setState]
  · simp [renderBasket, h, setState]
  · simp [renderBasket, h, setState]
  · intro data hd
    simp [extractBasketData, hd]

/-- Witness for C8: an empty basket extracted from a success response. -/
theorem c8_empty_basket_error_witness :
    (renderBasket (extractBasketData { blankResp with status := some "success" })
      { blankResp with status := some "success" } blankDom).errorVisible = true :=
  (c8_empty_basket_error (extractBasketData { blankResp with status := some "success" })
    { blankResp with status := some "success" } blankDom (by decide)).2.1

/-- C5 counterexample: a non-ok HTTP response that does carry a message —
the Vue UI displays its own HTTP-status fallback (`Server error 500`), not
the response's present `message` field, contradicting the claim that the
message field is displayed whenever present. -/
theorem c5_counterexample :
    sampleErrResp.message = some "boom" ∧
    (optimizeBasket { initialUIState with userQuery := "ужин" }
        (.response false 500 sampleErrResp)).1.error =
      some "❌ Ошибка: Server error 500" ∧
    some "❌ Ошибка: Server error 500" ≠ some "❌ Ошибка: boom" := by
  refine ⟨rfl, by decide, by decide⟩

/-- C5 as amended: for every response with body status `"error"` and for
every non-ok HTTP response, both UIs enter the error state with a
human-readable message and render no basket content; the message is: in
the vanilla UI, the response's non-empty `message` when present, otherwise
`HTTP <status>`; in the Vue UI, `Server error <status>` for non-ok
responses, otherwise the non-empty `message` when present, else
`Unknown error`. -/
theorem c5_error_state_and_message (s : UIState) (rawQ : String) (d : Dom)
    (ok : Bool) (st : ℕ) (data : RespData)
    (hq : jsTrim s.userQuery ≠ "") (hq2 : jsTrim rawQ ≠ "")
    (herr : ok = false ∨ data.status = some "error") :
    (generateBasket rawQ (.response ok st data) d).dom.errorVisible = true ∧
    (generateBasket rawQ (.response ok st data) d).dom.contentVisible = false ∧
    (generateBasket rawQ (.response ok st data) d).dom.basketBody = d.basketBody ∧
    (generateBasket rawQ (.response ok st data) d).dom.errorMessage =
      "❌ " ++ jsOrStr data.message ("HTTP " ++ toString st) ∧
    (optimizeBasket s (.response ok st data)).1.error =
      some (if ok = false then "❌ Ошибка: Server error " ++ toString st
            else "❌ Ошибка: " ++ jsOrStr data.message "Unknown error") ∧
    (optimizeBasket s (.response ok st data)).1.basket = [] ∧
    (optimizeBasket s (.response ok st data)).1.stages = [] := by
  rcases herr with hok | hse
  · subst hok
    refine ⟨?_, ?_, ?_, ?_, ?_, ?_, ?_⟩ <;>
      simp [generateBasket, optimizeBasket, hq, hq2, setState]
  · cases ok with
    | false =>
      refine ⟨?_, ?_, ?_, ?_, ?_, ?_, ?_⟩ <;>
        simp [generateBasket, optimizeBasket, hq, hq2, setState, hse]
    | true =>
      have hns : data.status ≠ some "success" := by rw [hse]; decide
      refine ⟨?_, ?_, ?_, ?_, ?_, ?_, ?_⟩ <;>
        simp [generateBasket, optimizeBasket, hq, hq2, setState, hse, hns]

/-- Witness for the amended C5 at a concrete error-status response. -/
theorem c5_error_state_and_message_witness :
    (generateBasket "ужин" (.response true 200 sampleErrResp) blankDom).dom.errorVisible = true ∧
    (optimizeBasket { initialUIState with userQuery := "ужин" }
        (.response true 200 sampleErrResp)).1.error =
      some (if (true : Bool) = false then "❌ Ошибка: Server error " ++ toString 200
            else "❌ Ошибка: " ++ jsOrStr sampleErrResp.message "Unknown error") :=
  ⟨(c5_error_state_and_message { initialUIState with userQuery := "ужин" } "ужин"
      blankDom true 200 sampleErrResp (by decide) (by decide) (Or.inr rfl)).1,
   (c5_error_state_and_message { initialUIState with userQuery := "ужин" } "ужин"
      blankDom true 200 sampleErrResp (by decide) (by decide) (Or.inr rfl)).2.2.2.2.1⟩

/-- C7 counterexample: the warning element's visibility is only written
when `budget_rub` is truthy, so a null-budget render leaves a warning
shown by a previous over-budget render visible — the claim's
"budget_rub null ⇒ warning not shown" fails. -/
theorem c7_counterexample :
    nullBudgetExtracted.budget_rub = none ∧
    (renderBasket nullBudgetExtracted blankResp
        (renderBasket overBudgetExtracted blankResp blankDom)).budgetWarningVisible = true := by
  constructor
  · rfl
  · have h1 : (renderBasket overBudgetExtracted blankResp blankDom).budgetWarningVisible = true := by
      simp [renderBasket, overBudgetExtracted, blankItem, jsTruthyOptQ, setState,
        renderAgentLog, blankResp]
    simp [renderBasket, nullBudgetExtracted, overBudgetExtracted, blankItem,
      jsTruthyOptQ, setState, h1]

/-- C7 as amended: after `renderBasket` renders a non-empty basket, a
truthy `budget_rub` makes the warning visible exactly when
`within_budget` is false, while a null `budget_rub` leaves the warning's
visibility unchanged from before the render (in particular it stays
hidden whenever it was hidden). -/
theorem c7_budget_warning (extracted : Extracted) (rawData : RespData) (d : Dom)
    (h : extracted.basket ≠ []) :
    (jsTruthyOptQ extracted.budget_rub = true →
      ((renderBasket extracted rawData d).budgetWarningVisible = true ↔
        extracted.within_budget = false)) ∧
    (jsTruthyOptQ extracted.budget_rub = false →
      (renderBasket extracted rawData d).budgetWarningVisible = d.budgetWarningVisible) := by
  constructor
  · intro ht
    cases hw : extracted.within_budget <;>
      simp [renderBasket, h, ht, hw, setState]
  · intro ht
    simp [renderBasket, h, ht, setState]

/-- Witness for the amended C7 at a concrete over-budget render. -/
theorem c7_budget_warning_witness :
    (renderBasket overBudgetExtracted blankResp blankDom).budgetWarningVisible = true ↔
      overBudgetExtracted.within_budget = false :=
  (c7_budget_warning overBudgetExtracted blankResp blankDom (by decide)).1 (by decide)
